import Mathlib

/-!
Verification development for the LightGUI toolkit
(`src/lightweight_gui`): a shallow embedding of the core
window/widget lifecycle (`src/lightgui.c`) and of the X11 backend's
button-event dispatch (`platform/linux.c`), together with theorems
settling the specification's claims.

Modelling conventions:
* Pointers are modelled as `Nat` handles; `0` plays the role of `NULL`
  (`malloc` never returns null-as-zero: fresh handles start at 1).
* The two heaps (windows, widgets) are association lists
  `List (Nat × _)`; `free` removes the entry, a dangling handle simply
  fails to look up.
* C strings are byte lists (`CStr`), the NUL terminator excluded; a
  nullable `char*` field is `Option CStr`.
* Every fallible allocation (`malloc`, `strdup`, `realloc`, and each
  platform-backend construction which in the C source either fully
  succeeds or cleanly unwinds) consumes one tick of an allocation
  oracle `List Bool`; the empty oracle means every allocation succeeds.
* Objects under construction are assembled locally and only inserted
  into the heap when the C code would make them reachable; a C failure
  path that frees everything it allocated is therefore modelled by
  returning the entry state (the fresh-handle counters are modelling
  artifacts and are ignored by observational equality `SameGui`).
-/

namespace LightGui

/-- A heap handle (a C pointer); `0` is `NULL`. -/
abbrev Handle := Nat

/-- Bytes of a NUL-terminated C string, terminator excluded. -/
abbrev CStr := List Nat

/-- Allocation oracle: each fallible allocation consumes one tick;
an exhausted oracle always succeeds. -/
abbrev Oracle := List Bool

/-- Consume one allocation tick. -/
def tick : Oracle → Bool × Oracle
  | [] => (true, [])
  | b :: rest => (b, rest)

/-- Association-list lookup keyed on handles (first match wins). -/
def hLookup {α : Type} : List (Nat × α) → Nat → Option α
  | [], _ => none
  | (k, v) :: rest, h => if k = h then some v else hLookup rest h

/-- Replace the value stored at key `k` (no-op if absent). -/
def hUpdate {α : Type} : List (Nat × α) → Nat → α → List (Nat × α)
  | [], _, _ => []
  | (a, b) :: rest, k, v =>
    (if a = k then (k, v) else (a, b)) :: hUpdate rest k v

/-- Remove the entry stored at key `k` (models `free`). -/
def hRemove {α : Type} : List (Nat × α) → Nat → List (Nat × α)
  | [], _ => []
  | (a, b) :: rest, k =>
    if a = k then hRemove rest k else (a, b) :: hRemove rest k

/-- Swap-with-last removal exactly as both removal loops in
`lightgui.c` do it: find the first index holding `x`, overwrite that
slot with the last element, decrement the count. -/
def swapRemove (l : List Handle) (x : Handle) : List Handle :=
  match l.findIdx? (fun h => h = x) with
  | none => l
  | some i =>
    match l.getLast? with
    | none => l
    | some last => (l.set i last).dropLast

/-- `LG_Color` (lightgui.h): four 8-bit channels. -/
structure LG_Color where
  r : Nat
  g : Nat
  b : Nat
  a : Nat
deriving DecidableEq, Repr

/-- `LG_CreateColor` (lightgui.c). -/
def LG_CreateColor (r g b a : Nat) : LG_Color := ⟨r, g, b, a⟩

def LG_COLOR_BLACK : LG_Color := LG_CreateColor 0 0 0 255
def LG_COLOR_WHITE : LG_Color := LG_CreateColor 255 255 255 255
def LG_COLOR_TRANSPARENT : LG_Color := LG_CreateColor 0 0 0 0

/-- `LG_Rect` (lightgui.h). -/
structure LG_Rect where
  x : Int
  y : Int
  width : Int
  height : Int
deriving DecidableEq, Repr

/-- `LG_WidgetType` (lightgui.h). -/
inductive LG_WidgetType
  | button
  | label
  | textfield
  | checkbox
  | slider
  | panel
deriving DecidableEq, Repr

/-- `LG_MouseButton` (lightgui.h). -/
inductive LG_MouseButton
  | left
  | right
  | middle
deriving DecidableEq, Repr

/-- `struct LG_Widget` (lightgui.h).  The opaque platform payload is
modelled as `Option Nat`: `some nid` is a heap-allocated `WidgetData`
holding native sub-window id `nid`, `none` is a null payload. -/
structure LG_Widget where
  type : LG_WidgetType
  window : Handle
  rect : LG_Rect
  text : Option CStr
  visible : Bool
  enabled : Bool
  bg_color : LG_Color
  text_color : LG_Color
  id : Int
  user_data : Nat
  platform_data : Option Nat
deriving DecidableEq, Repr

/-- `struct LG_Window` (lightgui.h).  The widget collection is the
list of stored widget handles (`widgets.widgets[0..count)`), with its
capacity carried separately; the event callback is an opaque function
pointer modelled as `Option Nat`. -/
structure LG_Window where
  title : Option CStr
  width : Int
  height : Int
  visible : Bool
  resizable : Bool
  widgets : List Handle
  widgetsCap : Nat
  event_callback : Option Nat
  user_data : Nat
  platform_data : Option Nat
deriving DecidableEq, Repr

/-- The global state of `lightgui.c` and of the X11 backend:
`g_initialized`, the registry `g_windows` (contents, capacity, and
whether its backing array is allocated), the two heaps, and the
fresh-pointer / fresh-native-id counters (modelling artifacts). -/
structure GuiState where
  initialized : Bool
  platformInit : Bool
  gWindows : List Handle
  gWindowsCap : Nat
  gWindowsAlloc : Bool
  windows : List (Handle × LG_Window)
  widgets : List (Handle × LG_Widget)
  nextHandle : Nat
  nextNative : Nat
deriving DecidableEq, Repr

/-- The state at process start. -/
def initState : GuiState :=
  { initialized := false
    platformInit := false
    gWindows := []
    gWindowsCap := 0
    gWindowsAlloc := false
    windows := []
    widgets := []
    nextHandle := 0
    nextNative := 0 }

/-- Observational equality of states: all components except the
fresh-handle counters, which only exist in the model. -/
def SameGui (s t : GuiState) : Prop :=
  s.initialized = t.initialized ∧ s.platformInit = t.platformInit ∧
  s.gWindows = t.gWindows ∧ s.gWindowsCap = t.gWindowsCap ∧
  s.gWindowsAlloc = t.gWindowsAlloc ∧ s.windows = t.windows ∧
  s.widgets = t.widgets

/-- A widget is live: its heap entry exists and its platform payload
is non-null (the spec's liveness criterion). -/
def WidgetLive (s : GuiState) (h : Handle) : Bool :=
  match hLookup s.widgets h with
  | none => false
  | some w => w.platform_data.isSome

/-- A window is live: its heap entry exists and its platform payload
is non-null. -/
def WindowLive (s : GuiState) (h : Handle) : Bool :=
  match hLookup s.windows h with
  | none => false
  | some w => w.platform_data.isSome

/-- `LG_Initialize` (lightgui.c:45-70).  Tick 1 is
`LG_PlatformInitialize` (XOpenDisplay + font; fails cleanly), tick 2
the `malloc` of the registry array.  Note the C code sets
`g_windows.capacity = 10` before the malloc and does not reset it on
the failure path. -/
def LG_Initialize (s : GuiState) (o : Oracle) : Bool × GuiState × Oracle :=
  if s.initialized then (true, s, o)
  else
    let (ok1, o1) := tick o
    if ok1 = false then (false, s, o1)
    else
      let s1 := { s with platformInit := true, gWindowsCap := 10 }
      let (ok2, o2) := tick o1
      if ok2 = false then (false, { s1 with platformInit := false }, o2)
      else (true, { s1 with gWindowsAlloc := true, initialized := true }, o2)

/-- `LG_DestroyWidget` (lightgui.c:401-422): platform payload freed,
swap-with-last removal from the owning window's collection, text and
struct freed. -/
def LG_DestroyWidget (s : GuiState) (h : Handle) : GuiState :=
  if s.initialized = false ∨ h = 0 then s
  else
    match hLookup s.widgets h with
    | none => s
    | some wid =>
      let s1 := { s with widgets := hUpdate s.widgets h ({ wid with platform_data := none }) }
      let s2 :=
        match hLookup s1.windows wid.window with
        | none => s1
        | some win =>
          let win1 := { win with widgets := swapRemove win.widgets h }
          { s1 with windows := hUpdate s1.windows wid.window win1 }
      { s2 with widgets := hRemove s2.widgets h }

/-- The widget-destruction loop of `LG_DestroyWindow`
(lightgui.c:178-180): `for (i = 0; i < window->widgets.count; i++)
LG_DestroyWidget(window->widgets.widgets[i]);` — the loop condition
re-reads the count that `LG_DestroyWidget` decrements.  Fuel bounds
the iteration count (the count never grows, so fuel `count + 1`
suffices). -/
def destroyWidgetsLoop (s : GuiState) (w : Handle) (i : Nat) : Nat → GuiState
  | 0 => s
  | fuel + 1 =>
    match hLookup s.windows w with
    | none => s
    | some win =>
      if i < win.widgets.length then
        destroyWidgetsLoop (LG_DestroyWidget s (win.widgets.getD i 0)) w (i + 1) fuel
      else s

/-- `LG_DestroyWindow` (lightgui.c:172-200): widget loop, widget array
freed, platform window torn down, swap-with-last removal from the
registry, title and struct freed. -/
def LG_DestroyWindow (s : GuiState) (w : Handle) : GuiState :=
  if s.initialized = false ∨ w = 0 then s
  else
    match hLookup s.windows w with
    | none => s
    | some win =>
      let s1 := destroyWidgetsLoop s w 0 (win.widgets.length + 1)
      { s1 with windows := hRemove s1.windows w, gWindows := swapRemove s1.gWindows w }

/-- The window-destruction loop of `LG_Terminate` (lightgui.c:79-81):
`for (i = 0; i < g_windows.count; i++)
LG_DestroyWindow(g_windows.windows[i]);` — the loop condition re-reads
the count that `LG_DestroyWindow` decrements. -/
def terminateLoop (s : GuiState) (i : Nat) : Nat → GuiState
  | 0 => s
  | fuel + 1 =>
    if i < s.gWindows.length then
      terminateLoop (LG_DestroyWindow s (s.gWindows.getD i 0)) (i + 1) fuel
    else s

/-- `LG_Terminate` (lightgui.c:72-93): early return when not
initialized, window loop, registry array freed and zeroed, platform
backend torn down, `g_initialized` cleared. -/
def LG_Terminate (s : GuiState) : GuiState :=
  if s.initialized = false then s
  else
    let s1 := terminateLoop s 0 (s.gWindows.length + 1)
    { s1 with gWindows := [], gWindowsCap := 0, gWindowsAlloc := false,
              platformInit := false, initialized := false }

/-- `LG_CreateWindow` (lightgui.c:99-170).  Ticks: `malloc` of the
struct, `strdup` of the title, `malloc` of the widget array
(capacity 20), `LG_PlatformCreateWindow` (which in linux.c either
fully succeeds, storing a fresh native window id in the payload, or
cleanly frees everything it allocated), and — only when the registry
is full — the `realloc` doubling it.  Every failure path frees all
partial allocations of this call and leaves the registry and heaps
untouched. -/
def LG_CreateWindow (s : GuiState) (o : Oracle) (title : CStr) (width height : Int)
    (resizable : Bool) : Option Handle × GuiState × Oracle :=
  if s.initialized = false then (none, s, o)
  else
    let (ok1, o1) := tick o
    if ok1 = false then (none, s, o1)
    else
      let h := s.nextHandle + 1
      let s1 := { s with nextHandle := h }
      let (ok2, o2) := tick o1
      if ok2 = false then (none, s1, o2)
      else
        let (ok3, o3) := tick o2
        if ok3 = false then (none, s1, o3)
        else
          let (ok4, o4) := tick o3
          if ok4 = false then (none, s1, o4)
          else
            let nid := s1.nextNative + 1
            let s2 := { s1 with nextNative := nid }
            let win : LG_Window :=
              { title := some title
                width := width
                height := height
                visible := false
                resizable := resizable
                widgets := []
                widgetsCap := 20
                event_callback := none
                user_data := 0
                platform_data := some nid }
            if s2.gWindows.length ≥ s2.gWindowsCap then
              let (ok5, o5) := tick o4
              if ok5 = false then (none, s2, o5)
              else
                let s3 := { s2 with gWindowsCap := s2.gWindowsCap * 2,
                                    gWindows := s2.gWindows ++ [h],
                                    windows := (h, win) :: s2.windows }
                (some h, s3, o5)
            else
              let s3 := { s2 with gWindows := s2.gWindows ++ [h],
                                  windows := (h, win) :: s2.windows }
              (some h, s3, o4)

/-- `AddWidgetToWindow` (lightgui.c:237-255): grow the collection by
doubling when full (one `realloc` tick; on failure the function just
returns and the widget is NOT added), then append the widget. -/
def AddWidgetToWindow (s : GuiState) (o : Oracle) (w : Handle) (h : Handle) :
    GuiState × Oracle :=
  match hLookup s.windows w with
  | none => (s, o)
  | some win =>
    if win.widgets.length ≥ win.widgetsCap then
      let (ok, o1) := tick o
      if ok = false then (s, o1)
      else
        let win1 := { win with widgetsCap := win.widgetsCap * 2,
                               widgets := win.widgets ++ [h] }
        ({ s with windows := hUpdate s.windows w win1 }, o1)
    else
      let win1 := { win with widgets := win.widgets ++ [h] }
      ({ s with windows := hUpdate s.windows w win1 }, o)

/-- Common body of `LG_CreateButton` / `LG_CreateLabel` /
`LG_CreateTextField` (lightgui.c:257-399; the three functions are
line-for-line parallel, differing only in the type tag, default
colors, and text-null policy, which the three wrappers below embed).
Ticks: `malloc` of the struct, `strdup` of the text,
`LG_PlatformCreateWidget` (linux.c:362-417: requires the owning
window's platform payload to be non-null, then either fully succeeds,
storing a fresh native sub-window id, or cleanly frees its
allocation).  On platform success the widget becomes reachable and
`AddWidgetToWindow` runs; its failure does not make the call return
null. -/
def createWidgetCore (s : GuiState) (o : Oracle) (w : Handle) (ty : LG_WidgetType)
    (t : CStr) (x y width height : Int) (bg fg : LG_Color) :
    Option Handle × GuiState × Oracle :=
  let (ok1, o1) := tick o
  if ok1 = false then (none, s, o1)
  else
    let h := s.nextHandle + 1
    let s1 := { s with nextHandle := h }
    let (ok2, o2) := tick o1
    if ok2 = false then (none, s1, o2)
    else
      match hLookup s1.windows w with
      | none => (none, s1, o2)
      | some win =>
        if win.platform_data = none then (none, s1, o2)
        else
          let (ok3, o3) := tick o2
          if ok3 = false then (none, s1, o3)
          else
            let nid := s1.nextNative + 1
            let wid : LG_Widget :=
              { type := ty
                window := w
                rect := ⟨x, y, width, height⟩
                text := some t
                visible := true
                enabled := true
                bg_color := bg
                text_color := fg
                id := 0
                user_data := 0
                platform_data := some nid }
            let s2 := { s1 with nextNative := nid, widgets := (h, wid) :: s1.widgets }
            let (s3, o4) := AddWidgetToWindow s2 o3 w h
            (some h, s3, o4)

/-- `LG_CreateButton` (lightgui.c:257-303): requires non-null text;
white background, black text. -/
def LG_CreateButton (s : GuiState) (o : Oracle) (w : Handle) (text : Option CStr)
    (x y width height : Int) : Option Handle × GuiState × Oracle :=
  if s.initialized = false ∨ w = 0 ∨ text = none then (none, s, o)
  else
    createWidgetCore s o w LG_WidgetType.button (text.getD []) x y width height
      LG_COLOR_WHITE LG_COLOR_BLACK

/-- `LG_CreateLabel` (lightgui.c:305-351): requires non-null text;
transparent background, black text. -/
def LG_CreateLabel (s : GuiState) (o : Oracle) (w : Handle) (text : Option CStr)
    (x y width height : Int) : Option Handle × GuiState × Oracle :=
  if s.initialized = false ∨ w = 0 ∨ text = none then (none, s, o)
  else
    createWidgetCore s o w LG_WidgetType.label (text.getD []) x y width height
      LG_COLOR_TRANSPARENT LG_COLOR_BLACK

/-- `LG_CreateTextField` (lightgui.c:353-399): null text is allowed
and normalized to the empty string (`STRDUP(text ? text : "")`);
white background, black text. -/
def LG_CreateTextField (s : GuiState) (o : Oracle) (w : Handle) (text : Option CStr)
    (x y width height : Int) : Option Handle × GuiState × Oracle :=
  if s.initialized = false ∨ w = 0 then (none, s, o)
  else
    createWidgetCore s o w LG_WidgetType.textfield (text.getD []) x y width height
      LG_COLOR_WHITE LG_COLOR_BLACK

/-- `LG_SetWidgetText` (lightgui.c:424-435): no-op on uninitialized,
null widget, or null text; otherwise the old text is freed and
replaced by `STRDUP(text)` — whose result is stored unchecked, so an
allocation failure leaves a null text.  The trailing
`LG_PlatformUpdateWidget` only redraws and does not change logical
state. -/
def LG_SetWidgetText (s : GuiState) (o : Oracle) (h : Handle) (text : Option CStr) :
    GuiState × Oracle :=
  if s.initialized = false ∨ h = 0 ∨ text = none then (s, o)
  else
    match hLookup s.widgets h with
    | none => (s, o)
    | some wid =>
      let (ok, o1) := tick o
      let newText := if ok then text else none
      ({ s with widgets := hUpdate s.widgets h ({ wid with text := newText }) }, o1)

/-- `memcpy`-style overwrite of the front of `dst` by `src` (the
remainder of `dst` is untouched). -/
def storeBytes (dst src : List Nat) : List Nat :=
  src.take dst.length ++ dst.drop src.length

/-- `LG_GetWidgetText` (lightgui.c:437-454).  The caller's buffer is
`Option (List Nat)` (`none` = null pointer); the returned pair is the
C return value and the buffer contents after the call.  Copies
`min(strlen(text), buffer_size - 1)` bytes and writes the terminator
right after them. -/
def LG_GetWidgetText (s : GuiState) (h : Handle) (buffer : Option (List Nat))
    (buffer_size : Nat) : Int × Option (List Nat) :=
  if s.initialized = false ∨ h = 0 ∨ buffer = none ∨ buffer_size = 0 then (-1, buffer)
  else
    match hLookup s.widgets h, buffer with
    | some wid, some buf =>
      match wid.text with
      | none => (0, some (storeBytes buf [0]))
      | some t =>
        let text_len := t.length
        let copy_len := if text_len < buffer_size - 1 then text_len else buffer_size - 1
        (Int.ofNat copy_len, some (storeBytes buf (t.take copy_len ++ [0])))
    | _, _ => (-1, buffer)

/-- `LG_SetWidgetPosition` (lightgui.c:456-466): updates `rect.x` and
`rect.y`; the trailing `LG_PlatformUpdateWidget` only resynchronizes
the native control. -/
def LG_SetWidgetPosition (s : GuiState) (h : Handle) (x y : Int) : GuiState :=
  if s.initialized = false ∨ h = 0 then s
  else
    match hLookup s.widgets h with
    | none => s
    | some wid =>
      let wid1 := { wid with rect := { wid.rect with x := x, y := y } }
      { s with widgets := hUpdate s.widgets h wid1 }

/-- `LG_SetWidgetSize` (lightgui.c:468-478). -/
def LG_SetWidgetSize (s : GuiState) (h : Handle) (width height : Int) : GuiState :=
  if s.initialized = false ∨ h = 0 then s
  else
    match hLookup s.widgets h with
    | none => s
    | some wid =>
      let wid1 := { wid with rect := { wid.rect with width := width, height := height } }
      { s with widgets := hUpdate s.widgets h wid1 }

/-- `LG_SetWidgetVisible` (lightgui.c:480-489). -/
def LG_SetWidgetVisible (s : GuiState) (h : Handle) (visible : Bool) : GuiState :=
  if s.initialized = false ∨ h = 0 then s
  else
    match hLookup s.widgets h with
    | none => s
    | some wid =>
      { s with widgets := hUpdate s.widgets h ({ wid with visible := visible }) }

/-- `LG_SetWidgetEnabled` (lightgui.c:491-500). -/
def LG_SetWidgetEnabled (s : GuiState) (h : Handle) (enabled : Bool) : GuiState :=
  if s.initialized = false ∨ h = 0 then s
  else
    match hLookup s.widgets h with
    | none => s
    | some wid =>
      { s with widgets := hUpdate s.widgets h ({ wid with enabled := enabled }) }

/-- `LG_SetWidgetBackgroundColor` (lightgui.c:502-511). -/
def LG_SetWidgetBackgroundColor (s : GuiState) (h : Handle) (color : LG_Color) : GuiState :=
  if s.initialized = false ∨ h = 0 then s
  else
    match hLookup s.widgets h with
    | none => s
    | some wid =>
      { s with widgets := hUpdate s.widgets h ({ wid with bg_color := color }) }

/-- `LG_SetWidgetTextColor` (lightgui.c:513-522). -/
def LG_SetWidgetTextColor (s : GuiState) (h : Handle) (color : LG_Color) : GuiState :=
  if s.initialized = false ∨ h = 0 then s
  else
    match hLookup s.widgets h with
    | none => s
    | some wid =>
      { s with widgets := hUpdate s.widgets h ({ wid with text_color := color }) }

/-- `LG_SetEventCallback` (lightgui.c:528-535): stores the callback
(an opaque function-pointer id) and the user-data pointer verbatim. -/
def LG_SetEventCallback (s : GuiState) (w : Handle) (callback : Option Nat)
    (user_data : Nat) : GuiState :=
  if s.initialized = false ∨ w = 0 then s
  else
    match hLookup s.windows w with
    | none => s
    | some win =>
      let win1 := { win with event_callback := callback, user_data := user_data }
      { s with windows := hUpdate s.windows w win1 }

/-! ## X11 backend event dispatch (platform/linux.c)

Only the `ButtonPress`/`ButtonRelease` arm of
`LG_PlatformProcessEvents` (linux.c:453-549) is embedded — the arm the
event-ordering claim is about.  Callbacks are opaque ids, so
processing a native button event yields the list of `Dispatched`
records delivered, in order, to window callbacks. -/

/-- The normalized event payloads produced by the embedded arm. -/
inductive LG_EventData
  | mouseButton (button : LG_MouseButton) (pressed : Bool) (x y : Int)
  | widgetClicked (widget : Handle) (x y : Int)
deriving DecidableEq, Repr

/-- An `LG_Event` as seen by a callback: `DispatchEvent` fills the
`window` field before invoking the callback. -/
structure LG_Event where
  window : Handle
  data : LG_EventData
deriving DecidableEq, Repr

/-- One synchronous callback invocation: which callback ran, with
which user data, on which event. -/
structure Dispatched where
  callback : Nat
  user_data : Nat
  event : LG_Event
deriving DecidableEq, Repr

/-- An X11 `ButtonPress`/`ButtonRelease` event (the fields linux.c
reads from `event.xbutton`): the native window id the event landed in,
press vs. release, the native button number (`Button1` = 1, ...), and
the coordinates. -/
structure XButtonEvent where
  xwindow : Nat
  press : Bool
  button : Nat
  x : Int
  y : Int
deriving DecidableEq, Repr

/-- `GetWindowHandle` (linux.c:63-66): the native window id stored in
a logical window's platform payload, or 0. -/
def GetWindowHandle (s : GuiState) (w : Handle) : Nat :=
  match hLookup s.windows w with
  | none => 0
  | some win => win.platform_data.getD 0

/-- `FindWindowByHandle` (linux.c:71-81): linear scan of the registry. -/
def FindWindowByHandle (s : GuiState) (xw : Nat) : Option Handle :=
  s.gWindows.find? (fun h => GetWindowHandle s h == xw)

/-- Does widget `h` carry native sub-window id `xw`
(linux.c:94: `widget->platform_data && data->window == x_window`)? -/
def widgetMatches (s : GuiState) (h : Handle) (xw : Nat) : Bool :=
  match hLookup s.widgets h with
  | none => false
  | some wid =>
    match wid.platform_data with
    | none => false
    | some nid => nid == xw

/-- `FindWidgetByHandle` (linux.c:86-101): scan every registry
window's widget collection, in stored order, for the native id. -/
def FindWidgetByHandle (s : GuiState) (xw : Nat) : Option Handle :=
  s.gWindows.findSome? (fun wh =>
    match hLookup s.windows wh with
    | none => none
    | some win => win.widgets.find? (fun h => widgetMatches s h xw))

/-- `DispatchEvent` (linux.c:105-110): invoke the window's callback
if one is registered, after setting the event's window field. -/
def DispatchEvent (s : GuiState) (w : Handle) (d : LG_EventData) : List Dispatched :=
  match hLookup s.windows w with
  | none => []
  | some win =>
    match win.event_callback with
    | none => []
    | some cb => [⟨cb, win.user_data, ⟨w, d⟩⟩]

/-- Native button number to `LG_MouseButton`
(linux.c:520-533: `Button1`/`Button2`/`Button3`, others ignored via
`continue`). -/
def buttonOfNative (b : Nat) : Option LG_MouseButton :=
  if b = 1 then some LG_MouseButton.left
  else if b = 2 then some LG_MouseButton.middle
  else if b = 3 then some LG_MouseButton.right
  else none

/-- The `ButtonPress`/`ButtonRelease` arm of `LG_PlatformProcessEvents`
(linux.c:453-548): resolve the native window id to a logical window —
first among registry windows, then among their widgets, taking the
widget's owning window — then, for a left press that landed in a
widget's native sub-window, dispatch the synthesized widget-clicked
event followed by the generic mouse-button event.  Returns the
callback invocations this native event produces, in order. -/
def processButtonEvent (s : GuiState) (e : XButtonEvent) : List Dispatched :=
  if e.xwindow = 0 then []
  else
    let resolved : Option Handle × Option Handle :=
      match FindWindowByHandle s e.xwindow with
      | some w => (some w, none)
      | none =>
        match FindWidgetByHandle s e.xwindow with
        | some widh =>
          match hLookup s.widgets widh with
          | some wrec => (if wrec.window = 0 then none else some wrec.window, some widh)
          | none => (none, some widh)
        | none => (none, none)
    match resolved with
    | (none, _) => []
    | (some w, widgetFound) =>
      match buttonOfNative e.button with
      | none => []
      | some btn =>
        let clicks :=
          match widgetFound with
          | some widh =>
            if e.press = true ∧ btn = LG_MouseButton.left then
              DispatchEvent s w (LG_EventData.widgetClicked widh e.x e.y)
            else []
          | none => []
        clicks ++ DispatchEvent s w (LG_EventData.mouseButton btn e.press e.x e.y)

/-- One pass of the event pump restricted to button events
(linux.c:456-459 drains all pending events in one
`LG_PlatformProcessEvents` call): the dispatches of the pass are the
concatenation, in queue order, of each native event's dispatches. -/
def processButtonEvents (s : GuiState) (evts : List XButtonEvent) : List Dispatched :=
  (evts.map (processButtonEvent s)).flatten

/-- The spec's widget-membership invariant, decided over a state:
every live widget (platform payload non-null) occurs exactly once in
the widget collection of the window its back-reference names. -/
def widgetMembershipOk (s : GuiState) : Bool :=
  s.widgets.all (fun p =>
    if p.2.platform_data.isSome then
      match hLookup s.windows p.2.window with
      | none => false
      | some win => win.widgets.count p.1 == 1
    else true)

/-! ## Concrete scenario states

All built through the public API with the all-successful allocation
oracle `[]`, so every state below is reachable. -/

/-- State after a successful `LG_Initialize`. -/
def sInit : GuiState := (LG_Initialize initState []).2.1

/-- One window, 400×300: handle 1. -/
def sWin : GuiState := (LG_CreateWindow sInit [] [84] 400 300 false).2.1

/-- Button "OK" (bytes [79, 75]) at (10,10,80,30) in window 1: handle 2. -/
def sBtn1 : GuiState := (LG_CreateButton sWin [] 1 (some [79, 75]) 10 10 80 30).2.1

/-- A second button in window 1: handle 3.  Window 1's widget
collection is now `[2, 3]`. -/
def sBtn2 : GuiState := (LG_CreateButton sBtn1 [] 1 (some [66]) 10 50 80 30).2.1

/-- `LG_DestroyWindow` on the two-widget window. -/
def sAfterDestroy : GuiState := LG_DestroyWindow sBtn2 1

/-- Two empty windows: handles 1 and 2. -/
def sTwoWin : GuiState :=
  (LG_CreateWindow (LG_CreateWindow sInit [] [65] 100 100 false).2.1 [] [66] 100 100 false).2.1

/-- `LG_Terminate` on the two-window state. -/
def sAfterTerminate : GuiState := LG_Terminate sTwoWin

/-- Window 1 of `sBtn1` given event callback id 7 with user data 9. -/
def sCb : GuiState := LG_SetEventCallback sBtn1 1 (some 7) 9

/-- Frame-effect contract of a widget setter: in the post-state the
target widget holds the updated record, every other widget is
untouched, and the windows heap, the registry, and the global flags
are unchanged. -/
def OnlyWidgetChanged (s s1 : GuiState) (h : Handle) (wid1 : LG_Widget) : Prop :=
  hLookup s1.widgets h = some wid1 ∧
  (∀ h2, h2 ≠ h → hLookup s1.widgets h2 = hLookup s.widgets h2) ∧
  s1.windows = s.windows ∧ s1.gWindows = s.gWindows ∧
  s1.gWindowsCap = s.gWindowsCap ∧ s1.gWindowsAlloc = s.gWindowsAlloc ∧
  s1.initialized = s.initialized ∧ s1.platformInit = s.platformInit

/-- Replace a state's widget heap (proof-side abbreviation). -/
def withWidgets (s : GuiState) (l : List (Handle × LG_Widget)) : GuiState :=
  { s with widgets := l }

/-- The widget record of handle 2 ("OK" button) in `sBtn1`/`sBtn2`. -/
def btnOKWidget : LG_Widget :=
  { type := LG_WidgetType.button
    window := 1
    rect := ⟨10, 10, 80, 30⟩
    text := some [79, 75]
    visible := true
    enabled := true
    bg_color := LG_COLOR_WHITE
    text_color := LG_COLOR_BLACK
    id := 0
    user_data := 0
    platform_data := some 2 }

/-- State after creating a button with text `[72]` in `sWin`
(handle 2), for the round-trip witness. -/
def c4s1 : GuiState := (LG_CreateButton sWin [] 1 (some [72]) 0 0 10 10).2.1

/-! ## Theorems -/

/-- Updating a stored key yields the new value. -/
theorem hLookup_hUpdate_self {α : Type} (l : List (Nat × α)) (k : Nat) (v w : α)
    (hl : hLookup l k = some w) : hLookup (hUpdate l k v) k = some v := by
  induction l with
  | nil => simp [hLookup] at hl
  | cons p rest ih =>
    obtain ⟨a, b⟩ := p
    simp only [hUpdate]
    by_cases hp : a = k
    · rw [if_pos hp]
      simp [hLookup]
    · rw [if_neg hp]
      simp only [hLookup, hp, if_false] at hl
      simp [hLookup, hp, ih hl]

/-- Updating one key leaves every other key's lookup unchanged. -/
theorem hLookup_hUpdate_ne {α : Type} (l : List (Nat × α)) (k k2 : Nat) (v : α)
    (hne : k2 ≠ k) : hLookup (hUpdate l k v) k2 = hLookup l k2 := by
  induction l with
  | nil => simp [hLookup, hUpdate]
  | cons p rest ih =>
    obtain ⟨a, b⟩ := p
    simp only [hUpdate]
    by_cases hp : a = k
    · rw [if_pos hp]
      have hka : k ≠ k2 := fun h => hne h.symm
      have hak : a ≠ k2 := hp ▸ hka
      simp [hLookup, hka, hak, ih]
    · rw [if_neg hp]
      simp [hLookup, ih]

/-- Claim C1 (code bug): the spec says `DestroyWindow(W)` destroys
every widget in W's collection and removes W from the registry.  The
destruction loop (lightgui.c:178-180) iterates by increasing index
while `LG_DestroyWidget` removes the current widget via swap-with-last
and decrements the very count the loop condition re-reads, so elements
are skipped.  Concretely: window 1 holds widgets `[2, 3]`; after
`LG_DestroyWindow` widget 2 is destroyed and window 1 is gone from the
registry, but widget 3 is still live — its platform payload was never
released and its memory never freed. -/
theorem C1_destroyWindow_skips_second_widget :
    (hLookup sBtn2.windows 1).map LG_Window.widgets = some [2, 3] ∧
    WidgetLive sBtn2 2 = true ∧ WidgetLive sBtn2 3 = true ∧
    WidgetLive sAfterDestroy 3 = true ∧
    hLookup sAfterDestroy.widgets 3 ≠ none ∧
    hLookup sAfterDestroy.widgets 2 = none ∧
    sAfterDestroy.gWindows = [] := by
  decide

/-- Claim C2 (code bug): the spec says `Terminate` destroys every
still-live window.  Its loop (lightgui.c:79-81) has the same
iterate-while-removing flaw as the widget loop: `LG_DestroyWindow`
swap-removes the current window from `g_windows` and decrements the
count the loop condition re-reads.  With live windows `[1, 2]`,
window 1 is destroyed but window 2 survives with its platform payload
unreleased; the registry is freed, the framework is uninitialized, and
a subsequent `Initialize` succeeds — so only the "destroys every
still-live window" conjunct fails. -/
theorem C2_terminate_skips_second_window :
    sTwoWin.gWindows = [1, 2] ∧
    WindowLive sTwoWin 1 = true ∧ WindowLive sTwoWin 2 = true ∧
    hLookup sAfterTerminate.windows 1 = none ∧
    WindowLive sAfterTerminate 2 = true ∧
    sAfterTerminate.gWindows = [] ∧
    sAfterTerminate.gWindowsAlloc = false ∧
    sAfterTerminate.initialized = false ∧
    (LG_Initialize sAfterTerminate []).1 = true := by
  decide

/-- Claim C3 (code bug): the widget-membership invariant fails on a
reachable state because of the skipping destruction loop
(lightgui.c:178-180).  Before `DestroyWindow` the invariant holds; in
the two-widget scenario of C1, after `DestroyWindow` widget 3 is still
live, its owning-window back-reference still names window 1, but
window 1 has been freed — so no window's collection contains widget 3
at all, let alone exactly once. -/
theorem C3_live_widget_with_dangling_owner :
    widgetMembershipOk sBtn2 = true ∧
    WidgetLive sAfterDestroy 3 = true ∧
    (hLookup sAfterDestroy.widgets 3).map LG_Widget.window = some 1 ∧
    hLookup sAfterDestroy.windows 1 = none ∧
    widgetMembershipOk sAfterDestroy = false := by
  decide

/-- Claim C8: `Terminate` before a successful `Initialize` is a
no-op (lightgui.c:73-76 returns before touching any state), and a
second `Initialize` while initialized returns true immediately
(lightgui.c:46-49), allocating nothing and changing nothing. -/
theorem C8_lifecycle_idempotence :
    (∀ s : GuiState, s.initialized = false → LG_Terminate s = s) ∧
    (∀ (s : GuiState) (o : Oracle), s.initialized = true →
      LG_Initialize s o = (true, s, o)) := by
  constructor
  · intro s hs
    simp [LG_Terminate, hs]
  · intro s o hs
    simp [LG_Initialize, hs]

/-- Witness for C8 at concrete states: the pristine state is
uninitialized, `sInit` is initialized. -/
theorem C8_lifecycle_idempotence_witness :
    LG_Terminate initState = initState ∧
    LG_Initialize sInit [] = (true, sInit, []) :=
  ⟨C8_lifecycle_idempotence.1 initState rfl,
   C8_lifecycle_idempotence.2 sInit [] rfl⟩

/-- Claim C10: each single-field widget setter
(lightgui.c:456-522) rewrites only its named logical field(s) of the
target widget; every other field of that widget, every other widget,
the windows heap (hence every window and its widget collection), the
registry, and the global flags are unchanged.  (The trailing
`LG_PlatformUpdateWidget` call only repaints the native control.) -/
theorem C10_setters_frame (s : GuiState) (h : Handle) (wid : LG_Widget)
    (x y wd ht : Int) (vis en : Bool) (cb ct : LG_Color)
    (hinit : s.initialized = true) (hnz : h ≠ 0)
    (hl : hLookup s.widgets h = some wid) :
    OnlyWidgetChanged s (LG_SetWidgetPosition s h x y) h
      ({ wid with rect := { wid.rect with x := x, y := y } }) ∧
    OnlyWidgetChanged s (LG_SetWidgetSize s h wd ht) h
      ({ wid with rect := { wid.rect with width := wd, height := ht } }) ∧
    OnlyWidgetChanged s (LG_SetWidgetVisible s h vis) h ({ wid with visible := vis }) ∧
    OnlyWidgetChanged s (LG_SetWidgetEnabled s h en) h ({ wid with enabled := en }) ∧
    OnlyWidgetChanged s (LG_SetWidgetBackgroundColor s h cb) h
      ({ wid with bg_color := cb }) ∧
    OnlyWidgetChanged s (LG_SetWidgetTextColor s h ct) h
      ({ wid with text_color := ct }) := by
  have base : ∀ wid1 : LG_Widget,
      OnlyWidgetChanged s (withWidgets s (hUpdate s.widgets h wid1)) h wid1 :=
    fun wid1 =>
      ⟨hLookup_hUpdate_self _ _ _ _ hl,
       fun h2 hne => hLookup_hUpdate_ne _ _ _ _ hne,
       rfl, rfl, rfl, rfl, rfl, rfl⟩
  refine ⟨?_, ?_, ?_, ?_, ?_, ?_⟩
  · have e : LG_SetWidgetPosition s h x y = withWidgets s (hUpdate s.widgets h
        ({ wid with rect := { wid.rect with x := x, y := y } })) := by
      simp [LG_SetWidgetPosition, withWidgets, hinit, hnz, hl]
    rw [e]; exact base _
  · have e : LG_SetWidgetSize s h wd ht = withWidgets s (hUpdate s.widgets h
        ({ wid with rect := { wid.rect with width := wd, height := ht } })) := by
      simp [LG_SetWidgetSize, withWidgets, hinit, hnz, hl]
    rw [e]; exact base _
  · have e : LG_SetWidgetVisible s h vis = withWidgets s (hUpdate s.widgets h
        ({ wid with visible := vis })) := by
      simp [LG_SetWidgetVisible, withWidgets, hinit, hnz, hl]
    rw [e]; exact base _
  · have e : LG_SetWidgetEnabled s h en = withWidgets s (hUpdate s.widgets h
        ({ wid with enabled := en })) := by
      simp [LG_SetWidgetEnabled, withWidgets, hinit, hnz, hl]
    rw [e]; exact base _
  · have e : LG_SetWidgetBackgroundColor s h cb = withWidgets s (hUpdate s.widgets h
        ({ wid with bg_color := cb })) := by
      simp [LG_SetWidgetBackgroundColor, withWidgets, hinit, hnz, hl]
    rw [e]; exact base _
  · have e : LG_SetWidgetTextColor s h ct = withWidgets s (hUpdate s.widgets h
        ({ wid with text_color := ct })) := by
      simp [LG_SetWidgetTextColor, withWidgets, hinit, hnz, hl]
    rw [e]; exact base _

/-- Witness for C10: moving the "OK" button of `sBtn1` to (5,6)
updates exactly its rectangle origin and leaves the windows heap
untouched. -/
theorem C10_setters_frame_witness :
    hLookup (LG_SetWidgetPosition sBtn1 2 5 6).widgets 2 =
      some ({ btnOKWidget with rect := { btnOKWidget.rect with x := 5, y := 6 } }) ∧
    (LG_SetWidgetPosition sBtn1 2 5 6).windows = sBtn1.windows := by
  have hw := C10_setters_frame sBtn1 2 btnOKWidget 5 6 0 0 false false
    LG_COLOR_BLACK LG_COLOR_BLACK (by decide) (by decide) (by decide)
  exact ⟨hw.1.1, hw.1.2.2.1⟩

/-- Behaviour of `LG_GetWidgetText` when every precondition holds:
the return value is `min (strlen text) (N - 1)` and the buffer now
holds the copied prefix, the terminator right after it, and its
untouched tail. -/
theorem getText_spec (s : GuiState) (h : Handle) (wid : LG_Widget) (t : CStr)
    (buf : List Nat) (N : Nat)
    (hinit : s.initialized = true) (hnz : h ≠ 0) (hN : N ≠ 0)
    (hl : hLookup s.widgets h = some wid) (htext : wid.text = some t)
    (hbuf : N ≤ buf.length) :
    LG_GetWidgetText s h (some buf) N =
      (Int.ofNat (min t.length (N - 1)),
       some (t.take (min t.length (N - 1)) ++ [0] ++
         buf.drop (min t.length (N - 1) + 1))) := by
  have hcopy : (if t.length < N - 1 then t.length else N - 1) = min t.length (N - 1) := by
    rcases Nat.lt_or_ge t.length (N - 1) with hc | hc
    · simp [hc, Nat.min_eq_left (Nat.le_of_lt hc)]
    · simp [Nat.not_lt.mpr hc, Nat.min_eq_right hc]
  have hcle : min t.length (N - 1) + 1 ≤ buf.length := by
    have := Nat.min_le_right t.length (N - 1)
    omega
  have hlen : (t.take (min t.length (N - 1)) ++ [0]).length = min t.length (N - 1) + 1 := by
    simp [List.length_take, Nat.min_eq_left (Nat.min_le_left t.length (N - 1))]
  have hsb : storeBytes buf (t.take (min t.length (N - 1)) ++ [0]) =
      t.take (min t.length (N - 1)) ++ [0] ++
        buf.drop (min t.length (N - 1) + 1) := by
    rw [storeBytes, hlen, List.take_of_length_le (by rw [hlen]; exact hcle)]
  simp [LG_GetWidgetText, hinit, hnz, hN, hl, htext, hcopy, hsb]

/-- Claim C5: for a live widget with text `t`, `GetWidgetText` into a
non-null buffer of capacity at least `N > 0` copies
`min(|t|, N-1)` bytes, writes the terminator right after them (so it
touches at most `N` of the buffer's bytes — everything from index
`min(|t|, N-1)+1 ≤ N` on is the original contents), and returns the
copied count; it returns `-1` exactly when a precondition fails:
uninitialized framework, null widget, null buffer, or zero size. -/
theorem C5_getWidgetText_truncation (s : GuiState) (h : Handle) (wid : LG_Widget)
    (t : CStr) (buf : List Nat) (N : Nat)
    (hl : hLookup s.widgets h = some wid) (htext : wid.text = some t)
    (hbuf : N ≤ buf.length) :
    ((LG_GetWidgetText s h (some buf) N).1 = -1 ↔
      (s.initialized = false ∨ h = 0 ∨ N = 0)) ∧
    (s.initialized = true → h ≠ 0 → N ≠ 0 →
      LG_GetWidgetText s h (some buf) N =
        (Int.ofNat (min t.length (N - 1)),
         some (t.take (min t.length (N - 1)) ++ [0] ++
           buf.drop (min t.length (N - 1) + 1))) ∧
      min t.length (N - 1) + 1 ≤ N) ∧
    (LG_GetWidgetText s h none N).1 = -1 := by
  refine ⟨⟨?_, ?_⟩, fun hinit hnz hN =>
    ⟨getText_spec s h wid t buf N hinit hnz hN hl htext hbuf, by omega⟩, ?_⟩
  · intro hm1
    by_contra hcon
    push_neg at hcon
    obtain ⟨hi, hnz, hN⟩ := hcon
    have hinit : s.initialized = true := by
      cases hb : s.initialized
      · exact absurd hb hi
      · rfl
    rw [getText_spec s h wid t buf N hinit hnz hN hl htext hbuf] at hm1
    simp only [Int.ofNat_eq_coe] at hm1
    omega
  · intro hc
    rcases hc with hc | hc | hc
    · simp [LG_GetWidgetText, hc]
    · simp [LG_GetWidgetText, hc]
    · simp [LG_GetWidgetText, hc]
  · simp [LG_GetWidgetText]

/-- Witness for C5 at a truncating call: the "OK" button's 2-byte text
read into a 2-byte buffer copies one byte, terminates inside the
buffer, and returns 1. -/
theorem C5_getWidgetText_truncation_witness :
    LG_GetWidgetText sBtn1 2 (some [9, 9]) 2 = (1, some [79, 0]) := by
  have hw := ((C5_getWidgetText_truncation sBtn1 2 btnOKWidget [79, 75] [9, 9] 2
    (by decide) (by decide) (by decide)).2.1 (by decide) (by decide) (by decide)).1
  rw [hw]
  decide

/-- `AddWidgetToWindow` only touches the windows heap: the widget
heap, the registry, and the global flags pass through unchanged. -/
theorem addWidget_fields (s : GuiState) (o : Oracle) (w h : Handle) :
    (AddWidgetToWindow s o w h).1.widgets = s.widgets ∧
    (AddWidgetToWindow s o w h).1.initialized = s.initialized ∧
    (AddWidgetToWindow s o w h).1.gWindows = s.gWindows := by
  unfold AddWidgetToWindow
  repeat' split
  all_goals exact ⟨rfl, rfl, rfl⟩

/-- Inversion of a successful `createWidgetCore` call: the framework
flag and registry pass through, the returned handle is non-null, and
the widget heap of the post-state maps the handle to exactly the
record the source builds (type tag, owning window, rectangle, the
duplicated text, visible and enabled, the given default colors, and a
live platform payload). -/
theorem createCore_some (s : GuiState) (o : Oracle) (w : Handle)
    (ty : LG_WidgetType) (t : CStr) (x y wd ht : Int) (bg fg : LG_Color)
    (h : Handle) (s1 : GuiState) (o1 : Oracle)
    (hc : createWidgetCore s o w ty t x y wd ht bg fg = (some h, s1, o1)) :
    s1.initialized = s.initialized ∧ s1.gWindows = s.gWindows ∧ h ≠ 0 ∧
    ∃ nid, hLookup s1.widgets h = some
      { type := ty, window := w, rect := ⟨x, y, wd, ht⟩, text := some t,
        visible := true, enabled := true, bg_color := bg, text_color := fg,
        id := 0, user_data := 0, platform_data := some nid } := by
  unfold createWidgetCore at hc
  rcases h1 : tick o with ⟨ok1, o1a⟩
  rw [h1] at hc
  cases ok1
  · simp at hc
  · simp only [Bool.true_eq_false, if_false] at hc
    rcases h2 : tick o1a with ⟨ok2, o2a⟩
    rw [h2] at hc
    cases ok2
    · simp at hc
    · simp only [Bool.true_eq_false, if_false] at hc
      rcases hwin : hLookup s.windows w with _ | win
      · simp only [hwin] at hc
        simp at hc
      · simp only [hwin] at hc
        rcases hpd : win.platform_data with _ | nid0
        · simp [hpd] at hc
        · rw [if_neg (by simp [hpd])] at hc
          rcases h3 : tick o2a with ⟨ok3, o3a⟩
          rw [h3] at hc
          cases ok3
          · simp at hc
          · simp only [Bool.true_eq_false, if_false] at hc
            rcases h4 : AddWidgetToWindow
                ({ s with nextHandle := s.nextHandle + 1,
                          nextNative := s.nextNative + 1,
                          widgets := (s.nextHandle + 1,
                            { type := ty, window := w, rect := ⟨x, y, wd, ht⟩,
                              text := some t, visible := true, enabled := true,
                              bg_color := bg, text_color := fg, id := 0,
                              user_data := 0,
                              platform_data := some (s.nextNative + 1) }) :: s.widgets })
                o3a w (s.nextHandle + 1) with ⟨s3, o4a⟩
            rw [h4] at hc
            simp only [Prod.mk.injEq, Option.some.injEq] at hc
            obtain ⟨hh, hs1, _⟩ := hc
            subst hh
            subst hs1
            have hfields := addWidget_fields
              ({ s with nextHandle := s.nextHandle + 1,
                        nextNative := s.nextNative + 1,
                        widgets := (s.nextHandle + 1,
                          { type := ty, window := w, rect := ⟨x, y, wd, ht⟩,
                            text := some t, visible := true, enabled := true,
                            bg_color := bg, text_color := fg, id := 0,
                            user_data := 0,
                            platform_data := some (s.nextNative + 1) }) :: s.widgets })
              o3a w (s.nextHandle + 1)
            rw [h4] at hfields
            refine ⟨hfields.2.1, hfields.2.2, Nat.succ_ne_zero _, s.nextNative + 1, ?_⟩
            rw [hfields.1]
            simp [hLookup]

/-- Inversion of a successful `LG_CreateButton` call with non-null
text. -/
theorem createButton_some (s : GuiState) (o : Oracle) (w : Handle) (t : CStr)
    (x y wd ht : Int) (h : Handle) (s1 : GuiState) (o1 : Oracle)
    (hc : LG_CreateButton s o w (some t) x y wd ht = (some h, s1, o1)) :
    s.initialized = true ∧ s1.initialized = true ∧ s1.gWindows = s.gWindows ∧
    h ≠ 0 ∧ ∃ nid, hLookup s1.widgets h = some
      { type := LG_WidgetType.button, window := w, rect := ⟨x, y, wd, ht⟩,
        text := some t, visible := true, enabled := true,
        bg_color := LG_COLOR_WHITE, text_color := LG_COLOR_BLACK,
        id := 0, user_data := 0, platform_data := some nid } := by
  unfold LG_CreateButton at hc
  by_cases hcond : s.initialized = false ∨ w = 0 ∨ (some t : Option CStr) = none
  · rw [if_pos hcond] at hc
    simp at hc
  · rw [if_neg hcond] at hc
    push_neg at hcond
    have hinit : s.initialized = true := by
      cases hb : s.initialized
      · exact absurd hb hcond.1
      · rfl
    have hcore := createCore_some s o w LG_WidgetType.button ((some t).getD [])
      x y wd ht LG_COLOR_WHITE LG_COLOR_BLACK h s1 o1 hc
    simp only [Option.getD_some] at hcore
    exact ⟨hinit, hinit ▸ hcore.1, hcore.2.1, hcore.2.2.1, hcore.2.2.2⟩

/-- After a `SetWidgetText` whose string duplication succeeds, a
`GetWidgetText` through a large-enough buffer returns exactly the new
text. -/
theorem setText_then_get (s : GuiState) (oS : Oracle) (h : Handle)
    (wid : LG_Widget) (t2 : CStr) (buf2 : List Nat) (N2 : Nat)
    (hinit : s.initialized = true) (hnz : h ≠ 0)
    (hl : hLookup s.widgets h = some wid)
    (hok : (tick oS).1 = true)
    (hN2 : t2.length < N2) (hbuf2 : N2 ≤ buf2.length) :
    LG_GetWidgetText (LG_SetWidgetText s oS h (some t2)).1 h (some buf2) N2 =
      (Int.ofNat t2.length, some (t2 ++ [0] ++ buf2.drop (t2.length + 1))) := by
  rcases htk : tick oS with ⟨okS, oS1⟩
  rw [htk] at hok
  have e : (LG_SetWidgetText s oS h (some t2)).1 =
      withWidgets s (hUpdate s.widgets h ({ wid with text := some t2 })) := by
    simp [LG_SetWidgetText, withWidgets, hinit, hnz, hl, htk, hok]
  rw [e]
  have hlw2 := hLookup_hUpdate_self s.widgets h ({ wid with text := some t2 }) _ hl
  have hmin2 : min t2.length (N2 - 1) = t2.length := Nat.min_eq_left (by omega)
  have hg2 := getText_spec
    (withWidgets s (hUpdate s.widgets h ({ wid with text := some t2 }))) h
    ({ wid with text := some t2 }) t2 buf2 N2 hinit hnz (by omega) hlw2 rfl hbuf2
  rw [hmin2, List.take_length] at hg2
  exact hg2

/-- Claim C4: text round-trip.  A widget created (here via
`CreateButton`) with text `t` of length below the read-buffer size
yields exactly `t` from an immediate `GetWidgetText`; after a
`SetWidgetText` with non-null `t2` whose string duplication succeeds
(`(tick oS).1 = true`), `GetWidgetText` yields exactly `t2`.  The
buffer hypotheses `N ≤ |buf|` state that the caller really provides
`N` bytes. -/
theorem C4_text_roundtrip (s : GuiState) (o : Oracle) (w : Handle) (t t2 : CStr)
    (x y wd ht : Int) (h : Handle) (s1 : GuiState) (o1 : Oracle)
    (buf buf2 : List Nat) (N N2 : Nat) (oS : Oracle)
    (hc : LG_CreateButton s o w (some t) x y wd ht = (some h, s1, o1))
    (hN : t.length < N) (hbuf : N ≤ buf.length)
    (hok : (tick oS).1 = true)
    (hN2 : t2.length < N2) (hbuf2 : N2 ≤ buf2.length) :
    LG_GetWidgetText s1 h (some buf) N =
      (Int.ofNat t.length, some (t ++ [0] ++ buf.drop (t.length + 1))) ∧
    LG_GetWidgetText (LG_SetWidgetText s1 oS h (some t2)).1 h (some buf2) N2 =
      (Int.ofNat t2.length, some (t2 ++ [0] ++ buf2.drop (t2.length + 1))) := by
  obtain ⟨hinit, hinit1, _, hnz, nid, hlw⟩ :=
    createButton_some s o w t x y wd ht h s1 o1 hc
  have hN0 : N ≠ 0 := by omega
  have hmin : min t.length (N - 1) = t.length := Nat.min_eq_left (by omega)
  have hg1 := getText_spec s1 h _ t buf N hinit1 hnz hN0 hlw rfl hbuf
  rw [hmin, List.take_length] at hg1
  exact ⟨hg1, setText_then_get s1 oS h _ t2 buf2 N2 hinit1 hnz hlw hok hN2 hbuf2⟩

/-- Witness for C4: create a button with text `[72]` in `sWin`
(handle 2), read it back through a 3-byte buffer, overwrite with
`[77, 78]`, read again through a 4-byte buffer read with size 3. -/
theorem C4_text_roundtrip_witness :
    LG_GetWidgetText c4s1 2 (some [5, 5, 5]) 3 = (1, some [72, 0, 5]) ∧
    LG_GetWidgetText (LG_SetWidgetText c4s1 [] 2 (some [77, 78])).1 2
      (some [1, 2, 3, 4]) 3 = (2, some [77, 78, 0, 4]) := by
  have hw := C4_text_roundtrip sWin [] 1 [72] [77, 78] 0 0 10 10 2 c4s1 []
    [5, 5, 5] [1, 2, 3, 4] 3 3 [] (by decide) (by decide) (by decide) rfl
    (by decide) (by decide)
  refine ⟨?_, ?_⟩
  · rw [hw.1]; decide
  · rw [hw.2]; decide

/-- Claim C7: with null text, `CreateButton` and `CreateLabel` fail
immediately — null return, state untouched, no widget created — while
`CreateTextField` normalizes the null to the empty string: whenever it
returns a handle, that widget's stored text is the empty string (and
the rest of its record is the text-field default). -/
theorem C7_null_text_policy (s : GuiState) (o : Oracle) (w : Handle)
    (x y wd ht : Int) :
    LG_CreateButton s o w none x y wd ht = (none, s, o) ∧
    LG_CreateLabel s o w none x y wd ht = (none, s, o) ∧
    (∀ h s1 o1, LG_CreateTextField s o w none x y wd ht = (some h, s1, o1) →
      ∃ nid, hLookup s1.widgets h = some
        { type := LG_WidgetType.textfield, window := w, rect := ⟨x, y, wd, ht⟩,
          text := some [], visible := true, enabled := true,
          bg_color := LG_COLOR_WHITE, text_color := LG_COLOR_BLACK,
          id := 0, user_data := 0, platform_data := some nid }) := by
  refine ⟨by simp [LG_CreateButton], by simp [LG_CreateLabel], ?_⟩
  intro h s1 o1 hc
  unfold LG_CreateTextField at hc
  by_cases hcond : s.initialized = false ∨ w = 0
  · rw [if_pos hcond] at hc
    simp at hc
  · rw [if_neg hcond] at hc
    have hcore := createCore_some s o w LG_WidgetType.textfield
      ((none : Option CStr).getD []) x y wd ht LG_COLOR_WHITE LG_COLOR_BLACK
      h s1 o1 hc
    simp only [Option.getD_none] at hcore
    exact hcore.2.2.2

/-- Witness for C7: in `sWin`, a null-text text field is created as
handle 2 with empty text, and a null-text button fails leaving the
state untouched. -/
theorem C7_null_text_policy_witness :
    LG_CreateButton sWin [] 1 none 0 0 50 20 = (none, sWin, []) ∧
    (hLookup (LG_CreateTextField sWin [] 1 none 0 0 50 20).2.1.widgets 2).map
      LG_Widget.text = some (some []) := by
  have hw := C7_null_text_policy sWin [] 1 0 0 50 20
  obtain ⟨nid, hnid⟩ := hw.2.2 2 (LG_CreateTextField sWin [] 1 none 0 0 50 20).2.1
    (LG_CreateTextField sWin [] 1 none 0 0 50 20).2.2 (by decide)
  exact ⟨hw.1, by rw [hnid]; rfl⟩

/-- Claim C6: `CreateWindow` either fails cleanly or appends an
invisible window.  If any construction step fails — the struct
`malloc` (tick 1), the title `strdup` (tick 2), the widget-array
`malloc` (tick 3), the platform window build (tick 4), or the registry
`realloc` when full (tick 5) — the call returns null and the state is
observationally unchanged (`SameGui`: registry, both heaps, capacity,
and flags all equal; only the model's fresh-pointer counters may have
moved, mirroring a C pointer that was malloc'd and freed again).  On
success the new handle is appended at the end of the registry, the
widget heap is untouched, and the stored window record is exactly the
source's: duplicated title, given size, NOT visible, empty collection
of capacity 20, no callback, live platform payload. -/
theorem C6_createWindow_failure_unwinds (s : GuiState) (o : Oracle) (t : CStr)
    (wd ht : Int) (rz : Bool) :
    ((LG_CreateWindow s o t wd ht rz).1 = none →
      SameGui (LG_CreateWindow s o t wd ht rz).2.1 s) ∧
    (∀ h, (LG_CreateWindow s o t wd ht rz).1 = some h →
      (LG_CreateWindow s o t wd ht rz).2.1.gWindows = s.gWindows ++ [h] ∧
      (LG_CreateWindow s o t wd ht rz).2.1.widgets = s.widgets ∧
      ∃ nid, hLookup (LG_CreateWindow s o t wd ht rz).2.1.windows h = some
        { title := some t, width := wd, height := ht, visible := false,
          resizable := rz, widgets := [], widgetsCap := 20,
          event_callback := none, user_data := 0,
          platform_data := some nid }) := by
  unfold LG_CreateWindow
  by_cases hin : s.initialized = false
  · rw [if_pos hin]
    exact ⟨fun _ => ⟨rfl, rfl, rfl, rfl, rfl, rfl, rfl⟩, fun h hc => by simp at hc⟩
  · rw [if_neg hin]
    rcases h1 : tick o with ⟨ok1, o1⟩
    dsimp only
    cases ok1
    · rw [if_pos rfl]
      exact ⟨fun _ => ⟨rfl, rfl, rfl, rfl, rfl, rfl, rfl⟩, fun h hc => by simp at hc⟩
    · rw [if_neg (by decide)]
      rcases h2 : tick o1 with ⟨ok2, o2⟩
      dsimp only
      cases ok2
      · rw [if_pos rfl]
        exact ⟨fun _ => ⟨rfl, rfl, rfl, rfl, rfl, rfl, rfl⟩, fun h hc => by simp at hc⟩
      · rw [if_neg (by decide)]
        rcases h3 : tick o2 with ⟨ok3, o3⟩
        dsimp only
        cases ok3
        · rw [if_pos rfl]
          exact ⟨fun _ => ⟨rfl, rfl, rfl, rfl, rfl, rfl, rfl⟩, fun h hc => by simp at hc⟩
        · rw [if_neg (by decide)]
          rcases h4 : tick o3 with ⟨ok4, o4⟩
          dsimp only
          cases ok4
          · rw [if_pos rfl]
            exact ⟨fun _ => ⟨rfl, rfl, rfl, rfl, rfl, rfl, rfl⟩, fun h hc => by simp at hc⟩
          · rw [if_neg (by decide)]
            by_cases hfull : s.gWindows.length ≥ s.gWindowsCap
            · rw [if_pos hfull]
              rcases h5 : tick o4 with ⟨ok5, o5⟩
              dsimp only
              cases ok5
              · rw [if_pos rfl]
                exact ⟨fun _ => ⟨rfl, rfl, rfl, rfl, rfl, rfl, rfl⟩,
                  fun h hc => by simp at hc⟩
              · rw [if_neg (by decide)]
                refine ⟨fun hc => by simp at hc, fun h hc => ?_⟩
                injection hc with hh
                subst hh
                exact ⟨rfl, rfl, s.nextNative + 1, by simp [hLookup]⟩
            · rw [if_neg hfull]
              refine ⟨fun hc => by simp at hc, fun h hc => ?_⟩
              injection hc with hh
              subst hh
              exact ⟨rfl, rfl, s.nextNative + 1, by simp [hLookup]⟩

/-- Witness for C6: in `sInit` a failing first allocation returns null
and leaves the state observationally unchanged; with every allocation
succeeding, the window lands in the registry as handle 1. -/
theorem C6_createWindow_failure_unwinds_witness :
    (LG_CreateWindow sInit [false] [84] 400 300 false).1 = none ∧
    SameGui (LG_CreateWindow sInit [false] [84] 400 300 false).2.1 sInit ∧
    (LG_CreateWindow sInit [] [84] 400 300 false).2.1.gWindows = [1] := by
  have hfail := (C6_createWindow_failure_unwinds sInit [false] [84] 400 300 false).1
    (by decide)
  have hsucc := (C6_createWindow_failure_unwinds sInit [] [84] 400 300 false).2 1
    (by decide)
  exact ⟨by decide, hfail, by rw [hsucc.1]; decide⟩

/-- Claim C9: a left `ButtonPress` whose native window id resolves to
a live widget's sub-window (not to a top-level window) produces, in
one processing pass of that native event, exactly two callback
invocations, in order: the widget-clicked event carrying that widget's
handle and the click coordinates, immediately followed by the generic
mouse-button pressed event with the same coordinates — both delivered
to the owning window's registered callback. -/
theorem C9_click_dispatch_order (s : GuiState) (e : XButtonEvent)
    (widh w cb : Nat) (wrec : LG_Widget) (win : LG_Window)
    (hxw : e.xwindow ≠ 0)
    (hnotwin : FindWindowByHandle s e.xwindow = none)
    (hfind : FindWidgetByHandle s e.xwindow = some widh)
    (hrec : hLookup s.widgets widh = some wrec)
    (hback : wrec.window = w) (hwnz : w ≠ 0)
    (hwl : hLookup s.windows w = some win)
    (hcb : win.event_callback = some cb)
    (hpress : e.press = true) (hbtn : e.button = 1) :
    processButtonEvent s e =
      [⟨cb, win.user_data, ⟨w, LG_EventData.widgetClicked widh e.x e.y⟩⟩,
       ⟨cb, win.user_data,
        ⟨w, LG_EventData.mouseButton LG_MouseButton.left true e.x e.y⟩⟩] ∧
    processButtonEvents s [e] =
      [⟨cb, win.user_data, ⟨w, LG_EventData.widgetClicked widh e.x e.y⟩⟩,
       ⟨cb, win.user_data,
        ⟨w, LG_EventData.mouseButton LG_MouseButton.left true e.x e.y⟩⟩] := by
  have hone : processButtonEvent s e =
      [⟨cb, win.user_data, ⟨w, LG_EventData.widgetClicked widh e.x e.y⟩⟩,
       ⟨cb, win.user_data,
        ⟨w, LG_EventData.mouseButton LG_MouseButton.left true e.x e.y⟩⟩] := by
    unfold processButtonEvent buttonOfNative DispatchEvent
    simp [hxw, hnotwin, hfind, hrec, hback, hwnz, hwl, hcb, hpress, hbtn]
  exact ⟨hone, by unfold processButtonEvents; rw [List.map_singleton, hone]; rfl⟩

/-- Witness for C9: in `sCb` (window 1 with callback 7 and user data 9
registered, "OK" button handle 2 with native sub-window id 2), a left
press at (15, 20) inside native window 2 dispatches the
widget-clicked then the mouse-button event. -/
theorem C9_click_dispatch_order_witness :
    processButtonEvent sCb ⟨2, true, 1, 15, 20⟩ =
      [⟨7, 9, ⟨1, LG_EventData.widgetClicked 2 15 20⟩⟩,
       ⟨7, 9, ⟨1, LG_EventData.mouseButton LG_MouseButton.left true 15 20⟩⟩] := by
  have hw := C9_click_dispatch_order sCb ⟨2, true, 1, 15, 20⟩ 2 1 7 btnOKWidget
    ({ title := some [84], width := 400, height := 300, visible := false,
        resizable := false, widgets := [2], widgetsCap := 20,
        event_callback := some 7, user_data := 9, platform_data := some 1 })
    (by decide) (by decide) (by decide) (by decide) (by decide) (by decide)
    (by decide) (by decide) (by decide) (by decide)
  exact hw.1

end LightGui
